import Mathlib

/-!
Shallow embedding of the FX portfolio options risk aggregator
(models.py, services/validator.py, services/pricing_engine.py,
services/aggregator.py) together with theorems settling the spec claims.

Numeric trade fields are embedded as real numbers; the standard normal
CDF and PDF used by the pricing engine (scipy.stats.norm) are embedded as
the exact real-analytic functions.
-/

namespace FxRisk

open scoped Real

/-! ## Data model (models.py) -/

/-- models.py `OptionType`: Call or Put. -/
inductive OptionType where
  | CALL
  | PUT
deriving DecidableEq

/-- The `.value` string of an `OptionType` member. -/
def OptionType.value : OptionType → String
  | .CALL => "CALL"
  | .PUT => "PUT"

/-- models.py `CurrencyPair`: the six supported pairs. -/
inductive CurrencyPair where
  | EURUSD
  | GBPUSD
  | USDJPY
  | AUDUSD
  | USDCAD
  | USDCHF
deriving DecidableEq

/-- The `.value` string of a `CurrencyPair` member. -/
def CurrencyPair.value : CurrencyPair → String
  | .EURUSD => "EURUSD"
  | .GBPUSD => "GBPUSD"
  | .USDJPY => "USDJPY"
  | .AUDUSD => "AUDUSD"
  | .USDCAD => "USDCAD"
  | .USDCHF => "USDCHF"

/-- Python `CurrencyPair(s)` enum lookup: succeeds exactly on the six values. -/
def CurrencyPair.ofString? (s : String) : Option CurrencyPair :=
  if s = "EURUSD" then some .EURUSD
  else if s = "GBPUSD" then some .GBPUSD
  else if s = "USDJPY" then some .USDJPY
  else if s = "AUDUSD" then some .AUDUSD
  else if s = "USDCAD" then some .USDCAD
  else if s = "USDCHF" then some .USDCHF
  else none

/-- models.py `RawTrade`: raw trade data, loosely typed. -/
structure RawTrade where
  TradeID : String
  Underlying : String
  Notional : ℝ
  NotionalCurrency : String
  Spot : ℝ
  Strike : ℝ
  Vol : ℝ
  RateDomestic : ℝ
  RateForeign : ℝ
  Expiry : ℝ
  OptionType : String

/-- models.py `ValidatedTrade`: fields in declaration order. -/
structure ValidatedTrade where
  trade_id : String
  currency_pair : CurrencyPair
  option_type : OptionType
  strike : ℝ
  notional : ℝ
  notional_currency : String
  time_to_expiry : ℝ
  spot : ℝ
  volatility : ℝ
  domestic_rate : ℝ
  foreign_rate : ℝ

/-- models.py `PricedTrade`: fields in declaration order.  Note that the
model has no `domestic_rate` and no `foreign_rate` field. -/
structure PricedTrade where
  trade_id : String
  currency_pair : String
  option_type : String
  strike : ℝ
  notional : ℝ
  notional_currency : String
  spot : ℝ
  time_to_expiry : ℝ
  volatility : ℝ
  pv : ℝ
  delta : ℝ
  vega : ℝ

/-- Field names of `ValidatedTrade`, in models.py declaration order. -/
def validatedTradeFieldNames : List String :=
  ["trade_id", "currency_pair", "option_type", "strike", "notional",
   "notional_currency", "time_to_expiry", "spot", "volatility",
   "domestic_rate", "foreign_rate"]

/-- Field names of `PricedTrade`, in models.py declaration order. -/
def pricedTradeFieldNames : List String :=
  ["trade_id", "currency_pair", "option_type", "strike", "notional",
   "notional_currency", "spot", "time_to_expiry", "volatility",
   "pv", "delta", "vega"]

/-- models.py `PortfolioSummary`.  The valuation date is embedded as an
abstract index (no claim depends on its structure). -/
structure PortfolioSummary where
  total_trades : ℕ
  total_pv : ℝ
  total_delta : ℝ
  total_vega : ℝ
  valuation_date : ℕ
  reporting_currency : String

/-- models.py `ValidationResult`. -/
structure ValidationResult where
  valid_trades : List ValidatedTrade
  errors : List String

/-- models.py `ValidationResult.is_valid`: `len(self.errors) == 0`. -/
def ValidationResult.is_valid (r : ValidationResult) : Bool :=
  r.errors.length == 0

/-- Construction of a `ValidatedTrade`, embedding pydantic validation:
the per-field `Field` constraints of models.py in declaration order,
followed by the `validate_business_rules` model validator. -/
noncomputable def mkValidatedTrade (trade_id : String) (currency_pair : CurrencyPair)
    (option_type : OptionType) (strike notional : ℝ) (notional_currency : String)
    (time_to_expiry spot volatility domestic_rate foreign_rate : ℝ) :
    Except String ValidatedTrade :=
  if 0 < strike then
    if 0 < notional then
      if 0 < time_to_expiry ∧ time_to_expiry ≤ 10 then
        if 0 < spot then
          if 0 < volatility ∧ volatility ≤ 5 then
            if -0.1 ≤ domestic_rate ∧ domestic_rate ≤ 1 then
              if -0.1 ≤ foreign_rate ∧ foreign_rate ≤ 1 then
                -- validate_business_rules (models.py)
                if 1 < volatility then
                  .error "Volatility seems unreasonably high"
                else if ¬(notional_currency = "USD" ∨ notional_currency = "JPY") then
                  .error ("NotionalCurrency must be USD or JPY, got " ++ notional_currency)
                else
                  .ok ⟨trade_id, currency_pair, option_type, strike, notional,
                       notional_currency, time_to_expiry, spot, volatility,
                       domestic_rate, foreign_rate⟩
              else .error "foreign_rate out of range [-0.1, 1.0]"
            else .error "domestic_rate out of range [-0.1, 1.0]"
          else .error "volatility out of range (0, 5.0]"
        else .error "spot must be greater than 0"
      else .error "time_to_expiry out of range (0, 10.0]"
    else .error "notional must be greater than 0"
  else .error "strike must be greater than 0"

/-! ## Validator (services/validator.py) -/

/-- Python `str.upper()` on the ASCII strings handled by this system,
embedded at the character level. -/
def strUpper (s : String) : String :=
  ⟨s.data.map Char.toUpper⟩

/-- The underlying normalization of `_validate_single_trade`:
`.replace("/", "").replace(" ", "").upper()`.  Replacing a single
character by the empty string removes every occurrence of it. -/
def normalizeUnderlying (s : String) : String :=
  ⟨(s.data.filter fun c => ¬(c = '/' ∨ c = ' ')).map Char.toUpper⟩

/-- The option-type step of `_validate_single_trade`: upper-case the raw
text and look it up in `OptionType`; on failure the error interpolates
the Python list `[t.value for t in OptionType]`, which formats as
`[\x27CALL\x27, \x27PUT\x27]`. -/
def parseOptionType (s : String) : Except String OptionType :=
  let u := strUpper s
  if u = "CALL" then .ok .CALL
  else if u = "PUT" then .ok .PUT
  else .error ("Invalid OptionType \x27" ++ s ++ "\x27. Must be one of: [\x27CALL\x27, \x27PUT\x27]")

/-- The underlying step of `_validate_single_trade`: strip `/` and spaces,
upper-case, and look up in `CurrencyPair`. -/
def parseCurrencyPair (s : String) : Except String CurrencyPair :=
  let normalized := normalizeUnderlying s
  match CurrencyPair.ofString? normalized with
  | some cp => .ok cp
  | none => .error ("Invalid Underlying \x27" ++ s ++ "\x27. Must be one of: EUR/USD, GBP/USD, or USD/JPY")

/-- services/validator.py `_validate_single_trade`. The float value that
Python interpolates into the expiry message has no canonical rendering
over ℝ and is elided. -/
noncomputable def validateSingleTrade (raw : RawTrade) : Except String ValidatedTrade := do
  let option_type ← parseOptionType raw.OptionType
  let currency_pair ← parseCurrencyPair raw.Underlying
  if raw.Expiry ≤ 0 then
    .error "Expiry must be positive"
  else
    (mkValidatedTrade raw.TradeID currency_pair option_type raw.Strike raw.Notional
      raw.NotionalCurrency raw.Expiry raw.Spot raw.Vol raw.RateDomestic
      raw.RateForeign).mapError (fun e => "Validation error: " ++ e)

/-- One iteration of the loop body of `validate_trades`. -/
noncomputable def vtStep (acc : List ValidatedTrade × List String) (raw : RawTrade) :
    List ValidatedTrade × List String :=
  match validateSingleTrade raw with
  | .ok vt => (acc.1 ++ [vt], acc.2)
  | .error e => (acc.1, acc.2 ++ ["Trade " ++ raw.TradeID ++ ": " ++ e])

/-- services/validator.py `validate_trades`: fold the loop body over the
input, starting from empty accumulators. -/
noncomputable def validateTrades (raws : List RawTrade) : ValidationResult :=
  let p := raws.foldl vtStep ([], [])
  ⟨p.1, p.2⟩

/-! ## Standard normal PDF and CDF (scipy.stats.norm) -/

open MeasureTheory

/-- Standard normal probability density function, `scipy.stats.norm.pdf`. -/
noncomputable def normPdf (x : ℝ) : ℝ :=
  (Real.sqrt (2 * π))⁻¹ * Real.exp (-x ^ 2 / 2)

/-- Standard normal cumulative distribution function, `scipy.stats.norm.cdf`. -/
noncomputable def normCdf (x : ℝ) : ℝ :=
  ∫ t in Set.Iic x, normPdf t

lemma normPdf_eq_gaussianPDFReal : normPdf = ProbabilityTheory.gaussianPDFReal 0 1 := by
  funext x
  simp [normPdf, ProbabilityTheory.gaussianPDFReal]

lemma normPdf_pos (x : ℝ) : 0 < normPdf x := by
  rw [normPdf_eq_gaussianPDFReal]
  exact ProbabilityTheory.gaussianPDFReal_pos 0 1 x one_ne_zero

lemma integrable_normPdf : Integrable normPdf := by
  rw [normPdf_eq_gaussianPDFReal]
  exact ProbabilityTheory.integrable_gaussianPDFReal 0 1

lemma integral_normPdf : ∫ x, normPdf x = 1 := by
  rw [normPdf_eq_gaussianPDFReal]
  exact ProbabilityTheory.integral_gaussianPDFReal_eq_one 0 one_ne_zero

lemma normPdf_even (x : ℝ) : normPdf (-x) = normPdf x := by
  simp [normPdf, neg_sq]

lemma normCdf_add_Ioi (x : ℝ) : normCdf x + ∫ t in Set.Ioi x, normPdf t = 1 := by
  have h := integral_add_compl (measurableSet_Iic (a := x)) integrable_normPdf
  rw [Set.compl_Iic] at h
  rw [normCdf, h, integral_normPdf]

lemma integral_Ioi_normPdf_pos (x : ℝ) : 0 < ∫ t in Set.Ioi x, normPdf t := by
  rw [setIntegral_pos_iff_support_of_nonneg_ae
    (ae_of_all _ fun t => (normPdf_pos t).le) integrable_normPdf.integrableOn]
  have hsupp : Function.support normPdf = Set.univ :=
    Set.eq_univ_iff_forall.mpr fun t => (normPdf_pos t).ne'
  rw [hsupp, Set.univ_inter, Real.volume_Ioi]
  exact ENNReal.zero_lt_top

lemma integral_Iic_normPdf_pos (x : ℝ) : 0 < ∫ t in Set.Iic x, normPdf t := by
  rw [setIntegral_pos_iff_support_of_nonneg_ae
    (ae_of_all _ fun t => (normPdf_pos t).le) integrable_normPdf.integrableOn]
  have hsupp : Function.support normPdf = Set.univ :=
    Set.eq_univ_iff_forall.mpr fun t => (normPdf_pos t).ne'
  rw [hsupp, Set.univ_inter, Real.volume_Iic]
  exact ENNReal.zero_lt_top

lemma normCdf_pos (x : ℝ) : 0 < normCdf x :=
  integral_Iic_normPdf_pos x

lemma normCdf_lt_one (x : ℝ) : normCdf x < 1 := by
  have h := normCdf_add_Ioi x
  have hp := integral_Ioi_normPdf_pos x
  linarith

lemma normCdf_neg (x : ℝ) : normCdf (-x) = 1 - normCdf x := by
  have h1 : normCdf (-x) = ∫ t in Set.Ioi x, normPdf t := by
    rw [normCdf]
    calc ∫ t in Set.Iic (-x), normPdf t
        = ∫ t in Set.Iic (-x), normPdf (-t) :=
          setIntegral_congr_fun measurableSet_Iic fun t _ => (normPdf_even t).symm
      _ = ∫ t in Set.Ioi (-(-x)), normPdf t := integral_comp_neg_Iic (-x) normPdf
      _ = ∫ t in Set.Ioi x, normPdf t := by rw [neg_neg]
  have h2 := normCdf_add_Ioi x
  linarith

lemma normCdf_zero : normCdf 0 = 1 / 2 := by
  have h := normCdf_neg 0
  rw [neg_zero] at h
  linarith

lemma normCdf_mono : Monotone normCdf := fun _ _ h =>
  setIntegral_mono_set integrable_normPdf.integrableOn
    (ae_of_all _ fun t => (normPdf_pos t).le)
    (HasSubset.Subset.eventuallyLE (Set.Iic_subset_Iic.mpr h))

/-! ## Pricing engine (services/pricing_engine.py) -/

/-- services/pricing_engine.py `_calculate_d1_d2`. -/
noncomputable def calculateD1D2 (t : ValidatedTrade) : ℝ × ℝ :=
  let S := t.spot
  let K := t.strike
  let T := t.time_to_expiry
  let r_d := t.domestic_rate
  let r_f := t.foreign_rate
  let sigma := t.volatility
  let d1 := (Real.log (S / K) + (r_d - r_f + 0.5 * sigma ^ 2) * T) / (sigma * Real.sqrt T)
  (d1, d1 - sigma * Real.sqrt T)

/-- services/pricing_engine.py `_calculate_pv`. -/
noncomputable def calculatePv (t : ValidatedTrade) : ℝ :=
  let S := t.spot
  let K := t.strike
  let T := t.time_to_expiry
  let r_d := t.domestic_rate
  let r_f := t.foreign_rate
  let N := t.notional
  let d1 := (calculateD1D2 t).1
  let d2 := (calculateD1D2 t).2
  let df_domestic := Real.exp (-r_d * T)
  let df_foreign := Real.exp (-r_f * T)
  let pv_per_unit :=
    if t.option_type = OptionType.CALL then
      S * df_foreign * normCdf d1 - K * df_domestic * normCdf d2
    else
      K * df_domestic * normCdf (-d2) - S * df_foreign * normCdf (-d1)
  pv_per_unit * N

/-- services/pricing_engine.py `_calculate_delta`. -/
noncomputable def calculateDelta (t : ValidatedTrade) : ℝ :=
  let T := t.time_to_expiry
  let r_f := t.foreign_rate
  let N := t.notional
  let d1 := (calculateD1D2 t).1
  let df_foreign := Real.exp (-r_f * T)
  let delta_per_unit :=
    if t.option_type = OptionType.CALL then
      df_foreign * normCdf d1
    else
      df_foreign * (normCdf d1 - 1)
  delta_per_unit * N

/-- services/pricing_engine.py `_calculate_vega`. -/
noncomputable def calculateVega (t : ValidatedTrade) : ℝ :=
  let S := t.spot
  let T := t.time_to_expiry
  let r_f := t.foreign_rate
  let N := t.notional
  let d1 := (calculateD1D2 t).1
  let df_foreign := Real.exp (-r_f * T)
  let vega_per_unit := S * df_foreign * normPdf d1 * Real.sqrt T
  vega_per_unit * N / 100

/-- The `PricedTrade` built for one trade inside `price_portfolio`. -/
noncomputable def priceTrade (t : ValidatedTrade) : PricedTrade :=
  { trade_id := t.trade_id
    currency_pair := t.currency_pair.value
    option_type := t.option_type.value
    strike := t.strike
    notional := t.notional
    notional_currency := t.notional_currency
    spot := t.spot
    time_to_expiry := t.time_to_expiry
    volatility := t.volatility
    pv := calculatePv t
    delta := calculateDelta t
    vega := calculateVega t }

/-- services/pricing_engine.py `PricingEngineService.price_portfolio`:
price each trade in input order. -/
noncomputable def priceTrades (trades : List ValidatedTrade) : List PricedTrade :=
  trades.map priceTrade

/-! ## Aggregator (services/aggregator.py) -/

/-- services/aggregator.py `_to_reporting_currency`. -/
noncomputable def toReportingCurrency (amount : ℝ) (trade : PricedTrade)
    (reporting_currency : String) : Except String ℝ :=
  let trade_ccy := strUpper trade.notional_currency
  let rc := strUpper reporting_currency
  if trade_ccy = rc then .ok amount
  else if trade.currency_pair = "USDJPY" ∧ trade_ccy = "JPY" ∧ rc = "USD" then
    .ok (amount / trade.spot)
  else if trade.currency_pair = "USDJPY" ∧ trade_ccy = "USD" ∧ rc = "JPY" then
    .ok (amount * trade.spot)
  else
    .error ("Unsupported conversion " ++ trade_ccy ++ "->" ++ rc ++ " for " ++ trade.currency_pair)

/-- The summation loop of `aggregate_portfolio`: convert pv, delta, vega of
each trade in order, adding to the running totals; a conversion failure
aborts immediately. -/
noncomputable def convertTotals (trades : List PricedTrade) (rc : String)
    (acc : ℝ × ℝ × ℝ) : Except String (ℝ × ℝ × ℝ) :=
  match trades with
  | [] => .ok acc
  | t :: rest => do
    let pv ← toReportingCurrency t.pv t rc
    let dl ← toReportingCurrency t.delta t rc
    let vg ← toReportingCurrency t.vega t rc
    convertTotals rest rc (acc.1 + pv, acc.2.1 + dl, acc.2.2 + vg)

/-- services/aggregator.py `AggregationService.aggregate_portfolio`. -/
noncomputable def aggregateTrades (priced_trades : List PricedTrade)
    (valuation_date : ℕ) (reporting_currency : String) :
    Except String PortfolioSummary :=
  (convertTotals priced_trades reporting_currency (0, 0, 0)).map fun totals =>
    { total_trades := priced_trades.length
      total_pv := totals.1
      total_delta := totals.2.1
      total_vega := totals.2.2
      valuation_date := valuation_date
      reporting_currency := reporting_currency }

/-! ## Helper lemmas and concrete trades used by the claim theorems -/

/-- The error string appended for a record that fails validation, as an
optional per-record result. -/
noncomputable def vtError (r : RawTrade) : Option String :=
  match validateSingleTrade r with
  | .ok _ => none
  | .error e => some ("Trade " ++ r.TradeID ++ ": " ++ e)

lemma vtFold_characterization (raws : List RawTrade)
    (acc : List ValidatedTrade × List String) :
    raws.foldl vtStep acc =
      (acc.1 ++ raws.filterMap (fun r => (validateSingleTrade r).toOption),
       acc.2 ++ raws.filterMap vtError) := by
  induction raws generalizing acc with
  | nil => simp
  | cons r rest ih =>
    rw [List.foldl_cons, ih]
    cases h : validateSingleTrade r with
    | ok vt => simp [vtStep, vtError, h, Except.toOption]
    | error e => simp [vtStep, vtError, h, Except.toOption]

lemma vtFilterMap_lengths (raws : List RawTrade) :
    (raws.filterMap (fun r => (validateSingleTrade r).toOption)).length +
      (raws.filterMap vtError).length = raws.length := by
  induction raws with
  | nil => simp
  | cons r rest ih =>
    cases h : validateSingleTrade r with
    | ok vt =>
      have h1 : List.filterMap (fun r => (validateSingleTrade r).toOption) (r :: rest)
          = vt :: List.filterMap (fun r => (validateSingleTrade r).toOption) rest := by
        simp [List.filterMap_cons, h, Except.toOption]
      have h2 : List.filterMap vtError (r :: rest) = List.filterMap vtError rest := by
        simp [List.filterMap_cons, vtError, h]
      rw [h1, h2, List.length_cons, List.length_cons]
      omega
    | error e =>
      have h1 : List.filterMap (fun r => (validateSingleTrade r).toOption) (r :: rest)
          = List.filterMap (fun r => (validateSingleTrade r).toOption) rest := by
        simp [List.filterMap_cons, h, Except.toOption]
      have h2 : List.filterMap vtError (r :: rest)
          = ("Trade " ++ r.TradeID ++ ": " ++ e) :: List.filterMap vtError rest := by
        simp [List.filterMap_cons, vtError, h]
      rw [h1, h2, List.length_cons, List.length_cons]
      omega

/-- A USD-denominated priced trade (figures from tests.py). -/
noncomputable def usdTrade : PricedTrade :=
  ⟨"T1", "EURUSD", "CALL", 1.10, 1000000, "USD", 1.08, 0.5, 0.12, 25000, 500000, 3000⟩

/-- A EUR-denominated priced trade on a non-USDJPY pair: the unsupported
aggregation combination from the spec. -/
noncomputable def eurTrade : PricedTrade :=
  ⟨"E1", "EURUSD", "CALL", 1.10, 1000000, "EUR", 1.08, 0.5, 0.12, 25000, 500000, 3000⟩

/-! ## Claim theorems -/

/-- C1 (amended): `price_portfolio` prices the trades in order, carrying
through trade_id, currency_pair (as its string value), option_type (as its
string value), strike, notional, notional_currency, spot, time_to_expiry
and volatility, and adding exactly the computed pv, delta and vega;
`domestic_rate` and `foreign_rate` are not carried (PricedTrade has no
such fields). -/
theorem priceTrades_field_passthrough (trades : List ValidatedTrade) :
    (priceTrades trades).length = trades.length
  ∧ (priceTrades trades).map PricedTrade.trade_id = trades.map ValidatedTrade.trade_id
  ∧ (priceTrades trades).map PricedTrade.currency_pair
      = trades.map (fun t => t.currency_pair.value)
  ∧ (priceTrades trades).map PricedTrade.option_type
      = trades.map (fun t => t.option_type.value)
  ∧ (priceTrades trades).map PricedTrade.strike = trades.map ValidatedTrade.strike
  ∧ (priceTrades trades).map PricedTrade.notional = trades.map ValidatedTrade.notional
  ∧ (priceTrades trades).map PricedTrade.notional_currency
      = trades.map ValidatedTrade.notional_currency
  ∧ (priceTrades trades).map PricedTrade.spot = trades.map ValidatedTrade.spot
  ∧ (priceTrades trades).map PricedTrade.time_to_expiry
      = trades.map ValidatedTrade.time_to_expiry
  ∧ (priceTrades trades).map PricedTrade.volatility = trades.map ValidatedTrade.volatility
  ∧ (priceTrades trades).map PricedTrade.pv = trades.map calculatePv
  ∧ (priceTrades trades).map PricedTrade.delta = trades.map calculateDelta
  ∧ (priceTrades trades).map PricedTrade.vega = trades.map calculateVega := by
  refine ⟨?_, ?_, ?_, ?_, ?_, ?_, ?_, ?_, ?_, ?_, ?_, ?_, ?_⟩ <;>
    simp [priceTrades, priceTrade, List.map_map, Function.comp]

/-- C1 counterexample: the ValidatedTrade fields `domestic_rate` and
`foreign_rate` are not among the fields of PricedTrade, so the claim that
all ValidatedTrade fields are carried through is false. -/
theorem pricedTrade_drops_rates :
    ("domestic_rate" ∈ validatedTradeFieldNames ∧ "domestic_rate" ∉ pricedTradeFieldNames)
  ∧ ("foreign_rate" ∈ validatedTradeFieldNames ∧ "foreign_rate" ∉ pricedTradeFieldNames) := by
  decide

/-- C2: `_to_reporting_currency` passes the amount through when the trade
currency equals the reporting currency (the comparison the code performs,
on the upper-cased codes); on a USDJPY pair it divides by spot for
JPY to USD, multiplies by spot for USD to JPY; every other combination
yields the fatal error naming the from/to conversion and the pair, and
never returns a value. -/
theorem toReportingCurrency_cases (a : ℝ) (t : PricedTrade) (rc : String) :
    (strUpper t.notional_currency = strUpper rc → toReportingCurrency a t rc = .ok a)
  ∧ (t.currency_pair = "USDJPY" → strUpper t.notional_currency = "JPY" →
      strUpper rc = "USD" → strUpper t.notional_currency ≠ strUpper rc →
      toReportingCurrency a t rc = .ok (a / t.spot))
  ∧ (t.currency_pair = "USDJPY" → strUpper t.notional_currency = "USD" →
      strUpper rc = "JPY" → strUpper t.notional_currency ≠ strUpper rc →
      toReportingCurrency a t rc = .ok (a * t.spot))
  ∧ (strUpper t.notional_currency ≠ strUpper rc →
      ¬(t.currency_pair = "USDJPY" ∧
        ((strUpper t.notional_currency = "JPY" ∧ strUpper rc = "USD") ∨
         (strUpper t.notional_currency = "USD" ∧ strUpper rc = "JPY"))) →
      toReportingCurrency a t rc =
        .error ("Unsupported conversion " ++ strUpper t.notional_currency ++ "->" ++
          strUpper rc ++ " for " ++ t.currency_pair)
      ∧ ∀ v : ℝ, toReportingCurrency a t rc ≠ .ok v) := by
  refine ⟨fun h => ?_, fun hp hj hu hne => ?_, fun hp hu hj hne => ?_, fun hne hnot => ?_⟩
  · simp [toReportingCurrency, h]
  · simp [toReportingCurrency, hp, hj, hu, hne]
  · simp [toReportingCurrency, hp, hj, hu, hne]
  · have h2 : ¬(t.currency_pair = "USDJPY" ∧ strUpper t.notional_currency = "JPY" ∧
        strUpper rc = "USD") := fun hc => hnot ⟨hc.1, Or.inl hc.2⟩
    have h3 : ¬(t.currency_pair = "USDJPY" ∧ strUpper t.notional_currency = "USD" ∧
        strUpper rc = "JPY") := fun hc => hnot ⟨hc.1, Or.inr hc.2⟩
    refine ⟨?_, ?_⟩
    · simp only [toReportingCurrency]
      rw [if_neg hne, if_neg h2, if_neg h3]
    · intro v
      simp only [toReportingCurrency]
      rw [if_neg hne, if_neg h2, if_neg h3]
      simp

/-- Witness for C2: a EUR-notional trade on EURUSD with reporting
currency USD hits the fatal error path, with the message naming the
conversion and the pair. -/
theorem toReportingCurrency_cases_witness :
    toReportingCurrency 25000 eurTrade "USD" =
      .error ("Unsupported conversion " ++ strUpper eurTrade.notional_currency ++ "->" ++
        strUpper "USD" ++ " for " ++ eurTrade.currency_pair)
  ∧ (∀ v : ℝ, toReportingCurrency 25000 eurTrade "USD" ≠ .ok v)
  ∧ ("Unsupported conversion " ++ strUpper eurTrade.notional_currency ++ "->" ++
      strUpper "USD" ++ " for " ++ eurTrade.currency_pair)
      = "Unsupported conversion EUR->USD for EURUSD" := by
  have h := (toReportingCurrency_cases 25000 eurTrade "USD").2.2.2 (by decide) (by decide)
  exact ⟨h.1, h.2, by decide⟩

/-- C3: `validate_trades` validates each record independently (each output
is a per-record filterMap of the input), every record contributes exactly
one element to valid_trades or errors, both outputs preserve input order,
every error string has the form Trade id: reason, and is_valid holds iff
the error list is empty. -/
theorem validateTrades_spec (raws : List RawTrade) :
    (validateTrades raws).valid_trades
      = raws.filterMap (fun r => (validateSingleTrade r).toOption)
  ∧ (validateTrades raws).errors = raws.filterMap vtError
  ∧ (validateTrades raws).valid_trades.length + (validateTrades raws).errors.length
      = raws.length
  ∧ (∀ e ∈ (validateTrades raws).errors, ∃ r ∈ raws, ∃ reason,
      validateSingleTrade r = .error reason ∧
      e = "Trade " ++ r.TradeID ++ ": " ++ reason)
  ∧ ((validateTrades raws).is_valid = true ↔ (validateTrades raws).errors = []) := by
  have hfold := vtFold_characterization raws ([], [])
  have hv : (validateTrades raws).valid_trades
      = raws.filterMap (fun r => (validateSingleTrade r).toOption) := by
    simp [validateTrades, hfold]
  have he : (validateTrades raws).errors = raws.filterMap vtError := by
    simp [validateTrades, hfold]
  refine ⟨hv, he, ?_, ?_, ?_⟩
  · rw [hv, he]; exact vtFilterMap_lengths raws
  · intro e hmem
    rw [he] at hmem
    rcases List.mem_filterMap.mp hmem with ⟨r, hr, hsome⟩
    cases hval : validateSingleTrade r with
    | ok vt => simp [vtError, hval] at hsome
    | error reason =>
      refine ⟨r, hr, reason, hval, ?_⟩
      simp [vtError, hval] at hsome
      exact hsome.symm
  · cases h : (validateTrades raws).errors <;>
      simp [ValidationResult.is_valid, h]

/-- C5: with every other field valid, construction of a ValidatedTrade
succeeds iff the volatility lies in (0, 1]: the business rule enforces the
100% ceiling even though the field-level bound allows up to 500%. -/
theorem volatility_ceiling (tid : String) (cp : CurrencyPair) (ot : OptionType)
    (strike notional : ℝ) (nc : String) (T S vol rd rf : ℝ)
    (hstrike : 0 < strike) (hnot : 0 < notional) (hT1 : 0 < T) (hT2 : T ≤ 10)
    (hS : 0 < S) (hrd1 : -0.1 ≤ rd) (hrd2 : rd ≤ 1) (hrf1 : -0.1 ≤ rf) (hrf2 : rf ≤ 1)
    (hnc : nc = "USD" ∨ nc = "JPY") :
    (∃ v, mkValidatedTrade tid cp ot strike notional nc T S vol rd rf = .ok v) ↔
      (0 < vol ∧ vol ≤ 1) := by
  simp only [mkValidatedTrade, if_pos hstrike, if_pos hnot, if_pos (And.intro hT1 hT2),
    if_pos hS]
  constructor
  · rintro ⟨v, hv⟩
    by_cases h5 : 0 < vol ∧ vol ≤ 5
    · rw [if_pos h5, if_pos (And.intro hrd1 hrd2), if_pos (And.intro hrf1 hrf2)] at hv
      by_cases hgt : 1 < vol
      · rw [if_pos hgt] at hv
        exact absurd hv (by simp)
      · exact ⟨h5.1, le_of_not_lt hgt⟩
    · rw [if_neg h5] at hv
      exact absurd hv (by simp)
  · rintro ⟨hv1, hv2⟩
    rw [if_pos (And.intro hv1 (by linarith)), if_pos (And.intro hrd1 hrd2),
      if_pos (And.intro hrf1 hrf2), if_neg (by linarith : ¬(1 < vol)),
      if_neg (not_not_intro hnc)]
    exact ⟨_, rfl⟩

/-- Witness for C5: a concrete trade with volatility 10% is accepted, and
the same trade with volatility 300% (within the 500% field bound) is
rejected, via the iff at both inputs. -/
theorem volatility_ceiling_witness :
    ((∃ v, mkValidatedTrade "W5" .EURUSD .CALL 1.1 1000000 "USD" 0.5 1.1 0.1 0.05 0.03
        = .ok v) ↔ ((0:ℝ) < 0.1 ∧ (0.1:ℝ) ≤ 1))
  ∧ ((∃ v, mkValidatedTrade "W5" .EURUSD .CALL 1.1 1000000 "USD" 0.5 1.1 3 0.05 0.03
        = .ok v) ↔ ((0:ℝ) < 3 ∧ (3:ℝ) ≤ 1)) :=
  ⟨volatility_ceiling "W5" .EURUSD .CALL 1.1 1000000 "USD" 0.5 1.1 0.1 0.05 0.03
      (by norm_num) (by norm_num) (by norm_num) (by norm_num) (by norm_num)
      (by norm_num) (by norm_num) (by norm_num) (by norm_num) (Or.inl rfl),
   volatility_ceiling "W5" .EURUSD .CALL 1.1 1000000 "USD" 0.5 1.1 3 0.05 0.03
      (by norm_num) (by norm_num) (by norm_num) (by norm_num) (by norm_num)
      (by norm_num) (by norm_num) (by norm_num) (by norm_num) (Or.inl rfl)⟩

/-- C6 (amended): any text whose upper-casing is CALL or PUT validates to
the corresponding member; any other text fails with the message
Invalid OptionType <raw> followed by the Python list formatting
[CALL, PUT] of the allowed values (not the bare CALL, PUT of the spec). -/
theorem parseOptionType_spec (s : String) :
    (strUpper s = "CALL" → parseOptionType s = .ok .CALL)
  ∧ (strUpper s = "PUT" → parseOptionType s = .ok .PUT)
  ∧ (strUpper s ≠ "CALL" → strUpper s ≠ "PUT" →
      parseOptionType s =
        .error ("Invalid OptionType \x27" ++ s ++
          "\x27. Must be one of: [\x27CALL\x27, \x27PUT\x27]")) := by
  refine ⟨fun h => ?_, fun h => ?_, fun h1 h2 => ?_⟩
  · simp [parseOptionType, h]
  · simp [parseOptionType, h]
  · simp [parseOptionType, h1, h2]

/-- Witness for C6: the mixed casings Call and pUt both validate. -/
theorem parseOptionType_spec_witness :
    (strUpper "Call" = "CALL" ∧ parseOptionType "Call" = .ok .CALL)
  ∧ (strUpper "pUt" = "PUT" ∧ parseOptionType "pUt" = .ok .PUT) :=
  ⟨⟨by decide, (parseOptionType_spec "Call").1 (by decide)⟩,
   ⟨by decide, (parseOptionType_spec "pUt").2.1 (by decide)⟩⟩

/-- C6 counterexample: on input FOO the produced message ends with the
Python-formatted list [CALL, PUT] and is not the spec wording
Must be one of: CALL, PUT. -/
theorem parseOptionType_message_counterexample :
    parseOptionType "FOO" =
      .error "Invalid OptionType \x27FOO\x27. Must be one of: [\x27CALL\x27, \x27PUT\x27]"
  ∧ ("Invalid OptionType \x27FOO\x27. Must be one of: [\x27CALL\x27, \x27PUT\x27]" : String) ≠
      "Invalid OptionType \x27FOO\x27. Must be one of: CALL, PUT" :=
  ⟨rfl, by decide⟩

/-- C10: the aggregator compares notional currency and reporting currency
after upper-casing both, so a case-insensitive match passes amounts
through unconverted, while the summary records the reporting-currency
string exactly as supplied. -/
theorem aggregateTrades_case_insensitive (t : PricedTrade) (d : ℕ) (rc : String)
    (h : strUpper t.notional_currency = strUpper rc) :
    aggregateTrades [t] d rc =
      .ok ⟨1, t.pv, t.delta, t.vega, d, rc⟩ := by
  simp [aggregateTrades, convertTotals, toReportingCurrency, h, Except.map,
    bind, Except.bind]

/-- Witness for C10: reporting currency usd (lower case) aggregates a
USD-denominated trade without conversion, and the summary records usd,
not the upper-cased USD. -/
theorem aggregateTrades_case_insensitive_witness :
    strUpper "USD" = strUpper "usd"
  ∧ ("usd" : String) ≠ "USD"
  ∧ aggregateTrades [usdTrade] 0 "usd" =
      .ok ⟨1, usdTrade.pv, usdTrade.delta, usdTrade.vega, 0, "usd"⟩ :=
  ⟨by decide, by decide, aggregateTrades_case_insensitive usdTrade 0 "usd" (by decide)⟩

/-! ## Spec-side Garman-Kohlhagen formulas (for the refinement claim C4) -/

/-- Modelled from the spec: the d1 term
`[ln(S/K) + (r_d - r_f + 0.5 sigma^2) T] / (sigma sqrt T)`. -/
noncomputable def specD1 (S K T sigma rd rf : ℝ) : ℝ :=
  (Real.log (S / K) + (rd - rf + 0.5 * sigma ^ 2) * T) / (sigma * Real.sqrt T)

/-- Modelled from the spec: CALL present value
`(S e^{-r_f T} Phi(d1) - K e^{-r_d T} Phi(d2)) N` with `d2 = d1 - sigma sqrt T`. -/
noncomputable def specCallPv (S K T sigma rd rf N : ℝ) : ℝ :=
  (S * Real.exp (-rf * T) * normCdf (specD1 S K T sigma rd rf)
    - K * Real.exp (-rd * T) * normCdf (specD1 S K T sigma rd rf - sigma * Real.sqrt T)) * N

/-- Modelled from the spec: PUT present value
`(K e^{-r_d T} Phi(-d2) - S e^{-r_f T} Phi(-d1)) N` with `d2 = d1 - sigma sqrt T`. -/
noncomputable def specPutPv (S K T sigma rd rf N : ℝ) : ℝ :=
  (K * Real.exp (-rd * T) * normCdf (-(specD1 S K T sigma rd rf - sigma * Real.sqrt T))
    - S * Real.exp (-rf * T) * normCdf (-(specD1 S K T sigma rd rf))) * N

/-- A valid trade with the figures of the tests.py ATM fixture. -/
noncomputable def exTrade : ValidatedTrade :=
  ⟨"TEST001", .EURUSD, .CALL, 1.1, 1000000, "USD", 0.5, 1.1, 0.1, 0.05, 0.03⟩

/-- A valid CALL trade with negative foreign rate -0.1 and 10-year expiry:
every field constraint of ValidatedTrade holds, yet its delta exceeds the
notional. -/
noncomputable def negRateTrade : ValidatedTrade :=
  ⟨"CEX", .EURUSD, .CALL, 1, 1, "USD", 10, 1, 1, 0, -0.1⟩

/-- C4: the pricing engine pv is exactly the Garman-Kohlhagen value of the
spec, per option type, times the notional. -/
theorem calculatePv_matches_gk (t : ValidatedTrade) :
    calculatePv t =
      match t.option_type with
      | .CALL => specCallPv t.spot t.strike t.time_to_expiry t.volatility
          t.domestic_rate t.foreign_rate t.notional
      | .PUT => specPutPv t.spot t.strike t.time_to_expiry t.volatility
          t.domestic_rate t.foreign_rate t.notional := by
  cases h : t.option_type with
  | CALL => simp [calculatePv, calculateD1D2, specCallPv, specD1, h]
  | PUT => simp [calculatePv, calculateD1D2, specPutPv, specD1, h]

/-- C7 (amended): a CALL delta lies in `(0, e^{-r_f T} notional)` and a PUT
delta in `(-e^{-r_f T} notional, 0)`; the spec bound `notional` is
recovered whenever `r_f T >= 0`, but can be exceeded for negative foreign
rates (see the counterexample). -/
theorem calculateDelta_range (t : ValidatedTrade) (hN : 0 < t.notional) :
    (t.option_type = .CALL →
      0 < calculateDelta t ∧
      calculateDelta t < Real.exp (-t.foreign_rate * t.time_to_expiry) * t.notional)
  ∧ (t.option_type = .PUT →
      -(Real.exp (-t.foreign_rate * t.time_to_expiry) * t.notional) < calculateDelta t ∧
      calculateDelta t < 0)
  ∧ (0 ≤ t.foreign_rate * t.time_to_expiry →
      Real.exp (-t.foreign_rate * t.time_to_expiry) * t.notional ≤ t.notional) := by
  have hdf : 0 < Real.exp (-t.foreign_rate * t.time_to_expiry) := Real.exp_pos _
  have hc1 : 0 < normCdf (calculateD1D2 t).1 := normCdf_pos _
  have hc2 : normCdf (calculateD1D2 t).1 < 1 := normCdf_lt_one _
  refine ⟨fun h => ?_, fun h => ?_, fun h => ?_⟩
  · have hdelta : calculateDelta t =
        Real.exp (-t.foreign_rate * t.time_to_expiry) * normCdf (calculateD1D2 t).1
          * t.notional := by
      simp [calculateDelta, h]
    rw [hdelta]
    constructor
    · positivity
    · exact mul_lt_mul_of_pos_right (mul_lt_of_lt_one_right hdf hc2) hN
  · have hdelta : calculateDelta t =
        Real.exp (-t.foreign_rate * t.time_to_expiry) * (normCdf (calculateD1D2 t).1 - 1)
          * t.notional := by
      simp [calculateDelta, h]
    rw [hdelta]
    constructor
    · have h1 : Real.exp (-t.foreign_rate * t.time_to_expiry) * (-1) <
          Real.exp (-t.foreign_rate * t.time_to_expiry)
            * (normCdf (calculateD1D2 t).1 - 1) :=
        mul_lt_mul_of_pos_left (by linarith) hdf
      calc -(Real.exp (-t.foreign_rate * t.time_to_expiry) * t.notional)
          = Real.exp (-t.foreign_rate * t.time_to_expiry) * (-1) * t.notional := by ring
        _ < Real.exp (-t.foreign_rate * t.time_to_expiry)
              * (normCdf (calculateD1D2 t).1 - 1) * t.notional :=
            mul_lt_mul_of_pos_right h1 hN
    · exact mul_neg_of_neg_of_pos
        (mul_neg_of_pos_of_neg hdf (by linarith)) hN
  · have h1 : Real.exp (-t.foreign_rate * t.time_to_expiry) ≤ 1 := by
      rw [Real.exp_le_one_iff]
      linarith
    exact mul_le_of_le_one_left hN.le h1

/-- Witness for C7: the amended bounds at the tests.py ATM call fixture. -/
theorem calculateDelta_range_witness :
    (0:ℝ) < 1000000
  ∧ ((exTrade.option_type = .CALL →
      0 < calculateDelta exTrade ∧
      calculateDelta exTrade <
        Real.exp (-exTrade.foreign_rate * exTrade.time_to_expiry) * exTrade.notional)
  ∧ (exTrade.option_type = .PUT →
      -(Real.exp (-exTrade.foreign_rate * exTrade.time_to_expiry) * exTrade.notional) <
        calculateDelta exTrade ∧ calculateDelta exTrade < 0)
  ∧ (0 ≤ exTrade.foreign_rate * exTrade.time_to_expiry →
      Real.exp (-exTrade.foreign_rate * exTrade.time_to_expiry) * exTrade.notional ≤
        exTrade.notional)) :=
  ⟨by norm_num, calculateDelta_range exTrade (by norm_num [exTrade])⟩

/-- C7 counterexample: a fully valid CALL trade (foreign rate -0.1, ten
years to expiry) whose delta strictly exceeds its notional, refuting
delta <= notional. -/
theorem calculateDelta_exceeds_notional :
    (0 < negRateTrade.strike ∧ 0 < negRateTrade.notional ∧
     0 < negRateTrade.time_to_expiry ∧ negRateTrade.time_to_expiry ≤ 10 ∧
     0 < negRateTrade.spot ∧
     0 < negRateTrade.volatility ∧ negRateTrade.volatility ≤ 1 ∧
     -0.1 ≤ negRateTrade.domestic_rate ∧ negRateTrade.domestic_rate ≤ 1 ∧
     -0.1 ≤ negRateTrade.foreign_rate ∧ negRateTrade.foreign_rate ≤ 1 ∧
     (negRateTrade.notional_currency = "USD" ∨ negRateTrade.notional_currency = "JPY"))
  ∧ negRateTrade.option_type = .CALL
  ∧ negRateTrade.notional < calculateDelta negRateTrade := by
  refine ⟨⟨by norm_num [negRateTrade], by norm_num [negRateTrade],
      by norm_num [negRateTrade], by norm_num [negRateTrade], by norm_num [negRateTrade],
      by norm_num [negRateTrade], by norm_num [negRateTrade], by norm_num [negRateTrade],
      by norm_num [negRateTrade], by norm_num [negRateTrade], by norm_num [negRateTrade],
      Or.inl rfl⟩, rfl, ?_⟩
  have hd1 : (calculateD1D2 negRateTrade).1
      = (Real.log ((1:ℝ) / 1) + (0 - (-0.1) + 0.5 * 1 ^ 2) * 10) / (1 * Real.sqrt 10) := by
    simp [calculateD1D2, negRateTrade]
  have hd1pos : 0 ≤ (calculateD1D2 negRateTrade).1 := by
    rw [hd1]
    apply div_nonneg
    · rw [div_self (by norm_num : (1:ℝ) ≠ 0), Real.log_one]
      norm_num
    · positivity
  have hPhi : (1:ℝ) / 2 ≤ normCdf (calculateD1D2 negRateTrade).1 := by
    rw [← normCdf_zero]
    exact normCdf_mono hd1pos
  have hdelta : calculateDelta negRateTrade
      = Real.exp 1 * normCdf (calculateD1D2 negRateTrade).1 * 1 := by
    norm_num [calculateDelta, negRateTrade]
  have hexp : (2.7182818283 : ℝ) < Real.exp 1 := Real.exp_one_gt_d9
  have hmul : Real.exp 1 * (1 / 2) ≤ Real.exp 1 * normCdf (calculateD1D2 negRateTrade).1 :=
    mul_le_mul_of_nonneg_left hPhi (Real.exp_pos 1).le
  have hlhs : negRateTrade.notional = (1:ℝ) := rfl
  rw [hlhs, hdelta]
  nlinarith

/-- C8: vega is strictly positive for every valid trade, and is identical
for a CALL and a PUT with all other fields equal (the formula does not
read the option type). -/
theorem calculateVega_pos_and_symmetric (t : ValidatedTrade)
    (hS : 0 < t.spot) (hT : 0 < t.time_to_expiry) (hN : 0 < t.notional) :
    0 < calculateVega t
  ∧ ∀ ot : OptionType, calculateVega { t with option_type := ot } = calculateVega t := by
  constructor
  · have hsq : 0 < Real.sqrt t.time_to_expiry := Real.sqrt_pos.mpr hT
    have hform : calculateVega t =
        t.spot * Real.exp (-t.foreign_rate * t.time_to_expiry)
          * normPdf (calculateD1D2 t).1 * Real.sqrt t.time_to_expiry
          * t.notional / 100 := rfl
    rw [hform]
    exact div_pos
      (mul_pos (mul_pos (mul_pos (mul_pos hS (Real.exp_pos _)) (normPdf_pos _)) hsq) hN)
      (by norm_num)
  · intro ot
    rfl

/-- Witness for C8 at the tests.py ATM fixture. -/
theorem calculateVega_pos_and_symmetric_witness :
    (0:ℝ) < 1.1 ∧
    (0 < calculateVega exTrade
  ∧ ∀ ot : OptionType, calculateVega { exTrade with option_type := ot }
      = calculateVega exTrade) :=
  ⟨by norm_num,
   calculateVega_pos_and_symmetric exTrade (by norm_num [exTrade])
     (by norm_num [exTrade]) (by norm_num [exTrade])⟩

/-- C9: put-call parity: for matched parameters,
`PV(call) - PV(put) = N (S e^{-r_f T} - K e^{-r_d T})` holds exactly, so in
particular within a relative tolerance of 1e-6. -/
theorem put_call_parity (tidC tidP : String) (cp : CurrencyPair) (nc : String)
    (S K T sigma rd rf N : ℝ) :
    calculatePv ⟨tidC, cp, .CALL, K, N, nc, T, S, sigma, rd, rf⟩
      - calculatePv ⟨tidP, cp, .PUT, K, N, nc, T, S, sigma, rd, rf⟩
      = N * (S * Real.exp (-rf * T) - K * Real.exp (-rd * T))
  ∧ |calculatePv ⟨tidC, cp, .CALL, K, N, nc, T, S, sigma, rd, rf⟩
      - calculatePv ⟨tidP, cp, .PUT, K, N, nc, T, S, sigma, rd, rf⟩
      - N * (S * Real.exp (-rf * T) - K * Real.exp (-rd * T))|
      ≤ 1e-6 * |N * (S * Real.exp (-rf * T) - K * Real.exp (-rd * T))| := by
  have hpar : calculatePv ⟨tidC, cp, .CALL, K, N, nc, T, S, sigma, rd, rf⟩
      - calculatePv ⟨tidP, cp, .PUT, K, N, nc, T, S, sigma, rd, rf⟩
      = N * (S * Real.exp (-rf * T) - K * Real.exp (-rd * T)) := by
    have hc : calculatePv ⟨tidC, cp, .CALL, K, N, nc, T, S, sigma, rd, rf⟩
        = (S * Real.exp (-rf * T)
            * normCdf ((Real.log (S / K) + (rd - rf + 0.5 * sigma ^ 2) * T)
                / (sigma * Real.sqrt T))
          - K * Real.exp (-rd * T)
            * normCdf ((Real.log (S / K) + (rd - rf + 0.5 * sigma ^ 2) * T)
                / (sigma * Real.sqrt T) - sigma * Real.sqrt T)) * N := rfl
    have hp : calculatePv ⟨tidP, cp, .PUT, K, N, nc, T, S, sigma, rd, rf⟩
        = (K * Real.exp (-rd * T)
            * normCdf (-((Real.log (S / K) + (rd - rf + 0.5 * sigma ^ 2) * T)
                / (sigma * Real.sqrt T) - sigma * Real.sqrt T))
          - S * Real.exp (-rf * T)
            * normCdf (-((Real.log (S / K) + (rd - rf + 0.5 * sigma ^ 2) * T)
                / (sigma * Real.sqrt T)))) * N := rfl
    rw [hc, hp, normCdf_neg, normCdf_neg]
    ring
  refine ⟨hpar, ?_⟩
  rw [hpar, sub_self, abs_zero]
  positivity

end FxRisk
